import Mathlib

/-
Shallow embedding of the rule-template repository (rule 901 evaluation engine
and its tenant-configuration cache), translated from:
  - src/src/rule-901.ts (positional/SQL handleTransaction, options/AQL
    handleTransaction, handleTransactionWithTenantConfig)
  - src/unnamed/part_002 (TenantConfigManager, isTenantsRuleRequest,
    ensureTenantRuleRequest)
  - src/__tests__/unit/rule.test.ts (determineOutcome band classifier)

JavaScript runtime values that flow through the evaluator are modelled by
`DbValue` (a number, a string, or null/undefined); JS truthiness checks on
optional fields are modelled by explicit `isFalsy...` helpers.  Thrown JS
errors are modelled as `Except.error` carrying the error message string.
Effects on the external stores are modelled by passing the store response in
as data and returning the number of store queries the run issued.
-/

namespace RuleTemplate

/-- A JavaScript value as it appears in query results and request fields:
a number (history counts are non-negative integers), a string, or
null/undefined collapsed into `nullV`. -/
inductive DbValue where
  | num (n : Nat)
  | str (s : String)
  | nullV
deriving DecidableEq, Repr

/-- The fields of a RuleRequest that the evaluator reads: the message id and
creation timestamp from FIToFIPmtSts.GrpHdr, the transaction status from
TxInfAndSts.TxSts, the optional TenantId field (absent, or present with an
arbitrary JS value), and DataCache.dbtrAcctId. -/
structure RuleRequest where
  msgId : String
  txSts : String
  creDtTm : String
  tenantId : Option DbValue
  dbtrAcctId : Option String
deriving DecidableEq, Repr

/-- An exit condition / outcome entry: subRuleRef and reason. -/
structure OutcomeResult where
  subRuleRef : String
  reason : String
deriving DecidableEq, Repr

/-- A classification band: label, optional inclusive lower limit, optional
exclusive upper limit, and reason. -/
structure Band where
  subRuleRef : String
  lowerLimit : Option Nat
  upperLimit : Option Nat
  reason : String
deriving DecidableEq, Repr

/-- The parameter map of a rule configuration; only maxQueryRange is read. -/
structure Parameters where
  maxQueryRange : Option Nat
deriving DecidableEq, Repr

/-- The nested `config` object of a RuleConfig; each field may be absent. -/
structure RuleConfigInner where
  parameters : Option Parameters
  exitConditions : Option (List OutcomeResult)
  bands : Option (List Band)
deriving DecidableEq, Repr

/-- A rule configuration: id (may be absent), config version, nested config. -/
structure RuleConfig where
  id : Option String
  cfg : String
  config : RuleConfigInner
deriving DecidableEq, Repr

/-- The mutable result record: rule id, config version, subRuleRef, reason. -/
structure RuleResult where
  id : String
  cfg : String
  subRuleRef : String
  reason : String
deriving DecidableEq, Repr

/-- A tenant-specific rule configuration: a RuleConfig plus its tenant. -/
structure TenantRuleConfig extends RuleConfig where
  tenantId : String
deriving DecidableEq, Repr

/-- JS truthiness of `bands?.length`: falsy when bands is absent or empty. -/
def isFalsyBands : Option (List Band) → Bool
  | none => true
  | some bs => bs.isEmpty

/-- JS truthiness of an optional string field: falsy when absent or empty. -/
def isFalsyOptStr : Option String → Bool
  | none => true
  | some s => s == ""

/-- JS truthiness of an optional numeric field: falsy when absent or zero. -/
def isFalsyOptNat : Option Nat → Bool
  | none => true
  | some n => n == 0

/-- From src/unnamed/part_002: `isTenantsRuleRequest` returns true exactly
when the TenantId field is present and is a string (any string, including
the empty string). -/
def isTenantsRuleRequest (req : RuleRequest) : Bool :=
  match req.tenantId with
  | some (.str _) => true
  | _ => false

/-- The string TenantId carried by a request passing `isTenantsRuleRequest`. -/
def tenantIdString (req : RuleRequest) : String :=
  match req.tenantId with
  | some (.str s) => s
  | _ => ""

/-- Modelled from the spec: the helper `unwrap` imported from the external
frms-coe-lib is not part of this repository's sources.  Per the spec's
HistoryCount contract (section 4.4) it yields the single value of the first
result batch, or an absent signal when there are no batches or the first
batch is empty; a count of zero is a legal value, not an absent signal. -/
def unwrapBatches {α : Type} (dataset : List (List α)) : Option α :=
  match dataset with
  | [] => none
  | batch :: _ => batch.head?

/-- From src/__tests__/unit/rule.test.ts lines 163-176: the JS truthiness
test `!band.lowerLimit || value >= band.lowerLimit` - an absent limit and a
zero limit are both falsy and hence both admit every value. -/
def bandMatches (value : Nat) (b : Band) : Bool :=
  (match b.lowerLimit with
   | none => true
   | some l => l == 0 || decide (l ≤ value))
  &&
  (match b.upperLimit with
   | none => true
   | some u => u == 0 || decide (value < u))

/-- From src/__tests__/unit/rule.test.ts lines 163-176: determineOutcome
walks the bands in list order and on the first band whose bounds admit the
value overwrites subRuleRef and reason of the result, then stops.  The
value handed over by handleTransaction is always a number here, so the JS
null guard on `value` is unreachable in this embedding. -/
def determineOutcome (value : Nat) (ruleConfig : RuleConfig) (ruleResult : RuleResult) : RuleResult :=
  match ruleConfig.config.bands with
  | none => ruleResult
  | some bs =>
    match bs.find? (bandMatches value) with
    | none => ruleResult
    | some band => { ruleResult with subRuleRef := band.subRuleRef, reason := band.reason }

/-- From src/src/rule-901.ts lines 128-209 (the options-bundle form of
handleTransaction): tenant guard, config guards in source order, dbtrAcctId
guard, early exit on unsuccessful status, then the history-count query on
the pseudonyms store.  The store response is passed in as the list of
result batches; the second component counts history-store queries issued. -/
def handleTransactionOpts (req : RuleRequest) (ruleConfig : RuleConfig)
    (ruleRes : RuleResult) (hist : List (List DbValue)) :
    Except String RuleResult × Nat :=
  if !(isTenantsRuleRequest req) then
    (.error "TenantId not provided in request", 0)
  else if isFalsyBands ruleConfig.config.bands then
    (.error "Invalid config provided - bands not provided or empty", 0)
  else if ruleConfig.config.exitConditions.isNone then
    (.error "Invalid config provided - exitConditions not provided", 0)
  else
    match ruleConfig.config.parameters with
    | none => (.error "Invalid config provided - parameters not provided", 0)
    | some params =>
      if isFalsyOptNat params.maxQueryRange then
        (.error "Invalid config provided - maxQueryRange parameter not provided", 0)
      else if isFalsyOptStr req.dbtrAcctId then
        (.error "Data Cache does not have required dbtrAcctId", 0)
      else
        if req.txSts ≠ "ACCC" then
          match (ruleConfig.config.exitConditions.getD []).find? (fun b => b.subRuleRef == ".x00") with
          | none => (.error "Unsuccessful transaction and no exit condition in config", 0)
          | some u => (.ok { ruleRes with reason := u.reason, subRuleRef := u.subRuleRef }, 0)
        else
          match unwrapBatches hist with
          | none => (.error "Data error: irretrievable transaction history", 1)
          | some .nullV => (.error "Data error: irretrievable transaction history", 1)
          | some (.str _) => (.error "Data error: query result type mismatch - expected a number", 1)
          | some (.num n) => (.ok (determineOutcome n ruleConfig ruleRes), 1)

/-- From src/src/rule-901.ts lines 17-101 (the legacy ordered-parameter form
of handleTransaction): same guards except there is no tenant guard, and the
count comes from the SQL event-history store as a row set whose single
column is modelled by the row's `length` value (`nullV` covers a null or
absent column).  Destructuring `const [{length}] = res.rows` on an empty
row set throws a JS TypeError, modelled by a distinct error message. -/
def handleTransactionPositional (req : RuleRequest) (ruleConfig : RuleConfig)
    (ruleRes : RuleResult) (rows : List DbValue) :
    Except String RuleResult × Nat :=
  if isFalsyBands ruleConfig.config.bands then
    (.error "Invalid config provided - bands not provided or empty", 0)
  else if ruleConfig.config.exitConditions.isNone then
    (.error "Invalid config provided - exitConditions not provided", 0)
  else
    match ruleConfig.config.parameters with
    | none => (.error "Invalid config provided - parameters not provided", 0)
    | some params =>
      if isFalsyOptNat params.maxQueryRange then
        (.error "Invalid config provided - maxQueryRange parameter not provided", 0)
      else if isFalsyOptStr req.dbtrAcctId then
        (.error "Data Cache does not have required dbtrAcctId", 0)
      else
        if req.txSts ≠ "ACCC" then
          match (ruleConfig.config.exitConditions.getD []).find? (fun b => b.subRuleRef == ".x00") with
          | none => (.error "Unsuccessful transaction and no exit condition in config", 0)
          | some u => (.ok { ruleRes with reason := u.reason, subRuleRef := u.subRuleRef }, 0)
        else
          match rows.head? with
          | none => (.error "TypeError: cannot destructure property length of undefined", 1)
          | some .nullV => (.error "Data error: irretrievable transaction history", 1)
          | some (.str _) => (.error "Data error: query result type mismatch - expected a number", 1)
          | some (.num n) => (.ok (determineOutcome n ruleConfig ruleRes), 1)

/-- The in-process cache of TenantConfigManager, modelled as an association
list from cache key to configuration; only entries before TTL expiry are
represented, so TTL-based eviction does not appear as an operation here. -/
abbrev Cache : Type := List (String × TenantRuleConfig)

/-- Cache read (NodeCache.get): first entry with the given key. -/
def cacheGet : Cache → String → Option TenantRuleConfig
  | [], _ => none
  | (k', v) :: rest, k => if k' == k then some v else cacheGet rest k

/-- Cache delete (NodeCache.del): drops every entry with the given key. -/
def cacheDel : Cache → String → Cache
  | [], _ => []
  | (k', v) :: rest, k => if k' == k then cacheDel rest k else (k', v) :: cacheDel rest k

/-- Cache write (NodeCache.set): upserts the entry for the given key. -/
def cacheSet (c : Cache) (k : String) (v : TenantRuleConfig) : Cache :=
  (k, v) :: cacheDel c k

/-- From src/unnamed/part_002 lines 41-90: getTenantRuleConfig builds the
cache key `tenantId:ruleId`, answers from the cache when the entry is
present, and otherwise issues one configuration-store query; when the query
yields no batches or an empty first batch it returns null without touching
the cache, and otherwise caches and returns the first result of the first
batch.  The configuration-store response is passed in as the batches the
query would return; the last component counts store queries issued. -/
def getTenantRuleConfig (cache : Cache) (store : List (List TenantRuleConfig))
    (tenantId ruleId : String) :
    Option TenantRuleConfig × Cache × Nat :=
  let cacheKey := tenantId ++ ":" ++ ruleId
  match cacheGet cache cacheKey with
  | some cached => (some cached, cache, 0)
  | none =>
    match store with
    | [] => (none, cache, 1)
    | batch :: _ =>
      match batch with
      | [] => (none, cache, 1)
      | config :: _ => (some config, cacheSet cache cacheKey config, 1)

/-- From src/unnamed/part_002 lines 126-130: invalidateCache deletes the
single cache key `tenantId:ruleId`. -/
def invalidateCache (cache : Cache) (tenantId ruleId : String) : Cache :=
  cacheDel cache (tenantId ++ ":" ++ ruleId)

/-- JS `String.prototype.startsWith` on character lists: the second list is
an initial segment of the first. -/
def charsStartWith : List Char → List Char → Bool
  | _, [] => true
  | [], _ :: _ => false
  | c :: cs, q :: qs => decide (q = c) && charsStartWith cs qs

/-- JS `s.startsWith(p)`. -/
def strStartsWith (s p : String) : Bool :=
  charsStartWith s.data p.data

/-- Helper for clearTenantCache: keep exactly the entries whose key does not
start with the given text (deleting each key in the filtered key list is
the same as filtering the entries). -/
def cacheClearWithStart : Cache → String → Cache
  | [], _ => []
  | (k', v) :: rest, p =>
    if strStartsWith k' p then cacheClearWithStart rest p
    else (k', v) :: cacheClearWithStart rest p

/-- From src/unnamed/part_002 lines 136-142: clearTenantCache deletes every
cached key that starts with `tenantId:`. -/
def clearTenantCache (cache : Cache) (tenantId : String) : Cache :=
  cacheClearWithStart cache (tenantId ++ ":")

/-- The observable outcome of one handleTransactionWithTenantConfig run:
the result or thrown error, the number of configuration-store queries, the
number of history-store queries, and the final cache contents. -/
structure TenantEvalResult where
  result : Except String RuleResult
  configQueries : Nat
  histQueries : Nat
  finalCache : Cache

/-- From src/src/rule-901.ts lines 227-260: ensure the request carries a
string TenantId, resolve the tenant configuration through the manager,
throw when none is found, and otherwise delegate to the options-bundle
handleTransaction with the resolved configuration. -/
def handleTransactionWithTenantConfig (req : RuleRequest) (baseRuleId : String)
    (ruleRes : RuleResult) (cache : Cache)
    (configStore : List (List TenantRuleConfig)) (hist : List (List DbValue)) :
    TenantEvalResult :=
  if !(isTenantsRuleRequest req) then
    ⟨.error "TenantId not provided in request", 0, 0, cache⟩
  else
    match getTenantRuleConfig cache configStore (tenantIdString req) baseRuleId with
    | (none, cache', q) =>
      ⟨.error ("No rule configuration found for tenant: " ++ tenantIdString req
          ++ ", rule: " ++ baseRuleId), q, 0, cache'⟩
    | (some tcfg, cache', q) =>
      ⟨(handleTransactionOpts req tcfg.toRuleConfig ruleRes hist).1, q,
        (handleTransactionOpts req tcfg.toRuleConfig ruleRes hist).2, cache'⟩

/-! Concrete fixtures taken from the repository's unit-test data. -/

/-- The mock request of the unit tests: status ACCC, string TenantId,
debtor account id present. -/
def req1 : RuleRequest :=
  ⟨"6b444365119746c5be7dfb5516ba67c4", "ACCC", "2021-12-03T09:24:48.000Z",
    some (.str "test-tenant-001"), some "dbtrAcct_1fd08e408c184dd28cbaeef03bff1af5"⟩

/-- The mock request with the TenantId field removed. -/
def reqNoTenant : RuleRequest := { req1 with tenantId := none }

/-- The mock request with an empty-string TenantId. -/
def reqEmptyTenant : RuleRequest := { req1 with tenantId := some (.str "") }

/-- The mock request with an unsuccessful transaction status. -/
def reqUnsuccessful : RuleRequest := { req1 with txSts := "something else" }

/-- The unsuccessful-status request with no TenantId field. -/
def reqUnsuccessfulNoTenant : RuleRequest := { reqUnsuccessful with tenantId := none }

/-- The band list of the unit tests' rule configuration. -/
def testBands : List Band :=
  [⟨".01", none, some 2, "The debtor has performed one transaction to date"⟩,
   ⟨".02", some 2, some 4, "The debtor has performed two or three transactions to date"⟩,
   ⟨".03", some 4, none, "The debtor has performed 4 or more transactions to date"⟩]

/-- The exit conditions of the unit tests' rule configuration. -/
def testExitConditions : List OutcomeResult :=
  [⟨".x00", "Incoming transaction is unsuccessful"⟩]

/-- The unit tests' rule configuration. -/
def testConfig : RuleConfig :=
  ⟨some "901@1.0.0", "1.0.0", ⟨some ⟨some 86400000⟩, some testExitConditions, some testBands⟩⟩

/-- The unit tests' rule configuration with the bands field removed. -/
def noBandsConfig : RuleConfig :=
  ⟨some "901@1.0.0", "1.0.0", ⟨some ⟨some 86400000⟩, some testExitConditions, none⟩⟩

/-- The unit tests' initial rule result. -/
def res0 : RuleResult := ⟨"901@1.0.0", "1.0.0", ".00", ""⟩

/-! ## C1 - band classification -/

/-- The band-bounds predicate exactly as claim C1 words it: the lower bound
admits the count when the lower limit is absent or count >= limit, the
upper bound admits it when the upper limit is absent or count < limit. -/
def claimBandMatches (value : Nat) (b : Band) : Bool :=
  (match b.lowerLimit with
   | none => true
   | some l => decide (l ≤ value))
  &&
  (match b.upperLimit with
   | none => true
   | some u => decide (value < u))

/-- First band admitted by the claim's predicate, in list order. -/
def claimFirstBand (value : Nat) (bs : List Band) : Option Band :=
  bs.find? (claimBandMatches value)

/-- The amended band-bounds predicate: a limit that is absent **or zero**
does not constrain the count (a zero limit is falsy in the source's
truthiness test and is therefore treated like an absent limit). -/
def amendedBandMatches (value : Nat) (b : Band) : Prop :=
  (∀ l, b.lowerLimit = some l → l = 0 ∨ l ≤ value) ∧
  (∀ u, b.upperLimit = some u → u = 0 ∨ value < u)

/-- The source's truthiness test decides the amended predicate. -/
theorem bandMatches_iff_amended (value : Nat) (b : Band) :
    bandMatches value b = true ↔ amendedBandMatches value b := by
  unfold bandMatches amendedBandMatches
  rcases b with ⟨sub, lo, hi, reason⟩
  rcases lo with _ | l <;> rcases hi with _ | u <;>
    simp [Bool.and_eq_true, Bool.or_eq_true, beq_iff_eq, decide_eq_true_iff]

instance (value : Nat) (b : Band) : Decidable (amendedBandMatches value b) :=
  decidable_of_iff (bandMatches value b = true) (bandMatches_iff_amended value b)

/-- First band admitted by the amended predicate, in list order. -/
def firstAmendedBand (value : Nat) : List Band → Option Band
  | [] => none
  | b :: rest => if amendedBandMatches value b then some b else firstAmendedBand value rest

theorem firstAmendedBand_eq_find (value : Nat) (bs : List Band) :
    firstAmendedBand value bs = bs.find? (bandMatches value) := by
  induction bs with
  | nil => rfl
  | cons b rest ih =>
    unfold firstAmendedBand
    rw [List.find?_cons]
    by_cases h : amendedBandMatches value b
    · rw [if_pos h, (bandMatches_iff_amended value b).mpr h]
    · have hb : bandMatches value b = false := by
        cases hb : bandMatches value b
        · rfl
        · exact absurd ((bandMatches_iff_amended value b).mp hb) h
      rw [if_neg h, hb, ih]

/-- A band whose stated upper limit is zero, used to separate the claim's
predicate from the source's truthiness test. -/
def zeroUpperBand : Band := ⟨".a", none, some 0, "zero upper limit"⟩

/-- A band with no limits at all. -/
def openBand : Band := ⟨".b", none, none, "open band"⟩

/-- A configuration whose first band has a zero upper limit. -/
def zeroUpperConfig : RuleConfig :=
  ⟨some "901@1.0.0", "1.0.0", ⟨some ⟨some 1⟩, some [], some [zeroUpperBand, openBand]⟩⟩

/-- Claim C1, counterexample: with bands `[.a: upper=0]`, `[.b: open]` and
count 1, the first band admitted by the claim's predicate is `.b` (1 < 0
fails), but the code classifies the count into `.a`, because a zero upper
limit is falsy and is treated by the source as if it were absent. -/
theorem c1_counterexample :
    claimFirstBand 1 [zeroUpperBand, openBand] = some openBand ∧
    (determineOutcome 1 zeroUpperConfig res0).subRuleRef = zeroUpperBand.subRuleRef ∧
    zeroUpperBand.subRuleRef ≠ openBand.subRuleRef := by
  decide

/-- Claim C1 (amended): for every count and ordered band list, the
classifier updates the result with the subRuleRef and reason of the first
band in list order such that (lowerLimit absent or zero OR count >=
lowerLimit) AND (upperLimit absent or zero OR count < upperLimit) - lower
bound inclusive, upper bound exclusive; when no band is admitted the result
passes through unchanged; and for the bands [.01: upper=2],
[.02: 2<=x<4], [.03: lower=4], count 1 yields .01, counts 2 and 3 yield
.02, and count 4 yields .03. -/
theorem c1_band_classification :
    (∀ (value : Nat) (cfg : RuleConfig) (res : RuleResult) (bs : List Band) (b : Band),
        cfg.config.bands = some bs →
        firstAmendedBand value bs = some b →
        determineOutcome value cfg res
          = { res with subRuleRef := b.subRuleRef, reason := b.reason }) ∧
    (∀ (value : Nat) (cfg : RuleConfig) (res : RuleResult) (bs : List Band),
        cfg.config.bands = some bs →
        firstAmendedBand value bs = none →
        determineOutcome value cfg res = res) ∧
    ((determineOutcome 1 testConfig res0).subRuleRef = ".01" ∧
     (determineOutcome 2 testConfig res0).subRuleRef = ".02" ∧
     (determineOutcome 3 testConfig res0).subRuleRef = ".02" ∧
     (determineOutcome 4 testConfig res0).subRuleRef = ".03") := by
  refine ⟨?_, ?_, by decide⟩
  · intro value cfg res bs b hbs hfb
    rw [firstAmendedBand_eq_find] at hfb
    simp [determineOutcome, hbs, hfb]
  · intro value cfg res bs hbs hfb
    rw [firstAmendedBand_eq_find] at hfb
    simp [determineOutcome, hbs, hfb]

/-- Witness for C1: the amended theorem applied to the concrete test bands
and count 1. -/
theorem c1_band_classification_witness :
    determineOutcome 1 testConfig res0
      = { res0 with
          subRuleRef := ".01",
          reason := "The debtor has performed one transaction to date" } :=
  c1_band_classification.1 1 testConfig res0 testBands
    ⟨".01", none, some 2, "The debtor has performed one transaction to date"⟩
    rfl (by decide)

/-! ## C2 - zero history count is a legal value -/

/-- Claim C2: for every request with status ACCC and valid configuration,
a history count of 0 is not treated as missing - no irretrievable-history
error is raised and the count 0 is classified through determineOutcome
(exactly one history query is issued). -/
theorem c2_zero_count (req : RuleRequest) (cfg : RuleConfig) (res : RuleResult)
    (hist : List (List DbValue)) (params : Parameters)
    (ht : isTenantsRuleRequest req = true)
    (hb : isFalsyBands cfg.config.bands = false)
    (hec : cfg.config.exitConditions.isNone = false)
    (hp : cfg.config.parameters = some params)
    (hq : isFalsyOptNat params.maxQueryRange = false)
    (hd : isFalsyOptStr req.dbtrAcctId = false)
    (hs : req.txSts = "ACCC")
    (hh : unwrapBatches hist = some (DbValue.num 0)) :
    handleTransactionOpts req cfg res hist = (.ok (determineOutcome 0 cfg res), 1) := by
  simp [handleTransactionOpts, ht, hb, hec, hp, hq, hd, hs, hh]

/-- Witness for C2: the test configuration and a store answering `[[0]]`. -/
theorem c2_zero_count_witness :
    handleTransactionOpts req1 testConfig res0 [[DbValue.num 0]]
      = (.ok (determineOutcome 0 testConfig res0), 1) :=
  c2_zero_count req1 testConfig res0 [[DbValue.num 0]] ⟨some 86400000⟩
    rfl rfl rfl rfl rfl rfl rfl rfl

/-! ## C3 - early exit on unsuccessful transaction -/

/-- Claim C3: for every request whose status is not ACCC and configuration
whose exit conditions contain a `.x00` entry, the evaluator returns
immediately with that entry's subRuleRef and reason merged into the
caller-supplied result, id and cfg preserved, and issues no history query. -/
theorem c3_early_exit (req : RuleRequest) (cfg : RuleConfig) (res : RuleResult)
    (hist : List (List DbValue)) (params : Parameters) (ecs : List OutcomeResult)
    (u : OutcomeResult)
    (ht : isTenantsRuleRequest req = true)
    (hb : isFalsyBands cfg.config.bands = false)
    (hec : cfg.config.exitConditions = some ecs)
    (hp : cfg.config.parameters = some params)
    (hq : isFalsyOptNat params.maxQueryRange = false)
    (hd : isFalsyOptStr req.dbtrAcctId = false)
    (hs : req.txSts ≠ "ACCC")
    (hu : ecs.find? (fun b => b.subRuleRef == ".x00") = some u) :
    handleTransactionOpts req cfg res hist
        = (.ok { res with subRuleRef := u.subRuleRef, reason := u.reason }, 0) ∧
      ({ res with subRuleRef := u.subRuleRef, reason := u.reason } : RuleResult).id = res.id ∧
      ({ res with subRuleRef := u.subRuleRef, reason := u.reason } : RuleResult).cfg = res.cfg := by
  refine ⟨?_, rfl, rfl⟩
  simp [handleTransactionOpts, ht, hb, hec, hp, hq, hd, hs, hu]

/-- Witness for C3: the unsuccessful-status mock request against the test
configuration. -/
theorem c3_early_exit_witness :
    handleTransactionOpts reqUnsuccessful testConfig res0 []
        = (.ok { res0 with
                 subRuleRef := ".x00",
                 reason := "Incoming transaction is unsuccessful" }, 0) :=
  (c3_early_exit reqUnsuccessful testConfig res0 [] ⟨some 86400000⟩ testExitConditions
    ⟨".x00", "Incoming transaction is unsuccessful"⟩
    rfl rfl rfl rfl rfl rfl (by decide) rfl).1

/-! ## C4 - unsuccessful transaction with no exit condition -/

/-- Claim C4: for every request whose status is not ACCC and configuration
whose exit conditions contain no `.x00` entry, the evaluator throws the
distinct unsuccessful-transaction error and issues no history query. -/
theorem c4_no_exit_condition (req : RuleRequest) (cfg : RuleConfig) (res : RuleResult)
    (hist : List (List DbValue)) (params : Parameters) (ecs : List OutcomeResult)
    (ht : isTenantsRuleRequest req = true)
    (hb : isFalsyBands cfg.config.bands = false)
    (hec : cfg.config.exitConditions = some ecs)
    (hp : cfg.config.parameters = some params)
    (hq : isFalsyOptNat params.maxQueryRange = false)
    (hd : isFalsyOptStr req.dbtrAcctId = false)
    (hs : req.txSts ≠ "ACCC")
    (hu : ecs.find? (fun b => b.subRuleRef == ".x00") = none) :
    handleTransactionOpts req cfg res hist
      = (.error "Unsuccessful transaction and no exit condition in config", 0) := by
  simp [handleTransactionOpts, ht, hb, hec, hp, hq, hd, hs, hu]

/-- Witness for C4: the unsuccessful-status mock request against the test
configuration whose only exit condition is relabelled `something`. -/
theorem c4_no_exit_condition_witness :
    handleTransactionOpts reqUnsuccessful
        { testConfig with
          config := { testConfig.config with
                      exitConditions := some [⟨"something", "Incoming transaction is unsuccessful"⟩] } }
        res0 []
      = (.error "Unsuccessful transaction and no exit condition in config", 0) :=
  c4_no_exit_condition reqUnsuccessful _ res0 [] ⟨some 86400000⟩
    [⟨"something", "Incoming transaction is unsuccessful"⟩]
    rfl rfl rfl rfl rfl rfl (by decide) (by decide)

/-! ## C5 - configuration validation order -/

/-- Claim C5: for every configuration the evaluator fails before any
history I/O with a distinct error for each invalid shape - bands missing or
empty, exitConditions missing, parameters missing, maxQueryRange missing or
falsy - and the check order is bands, then exitConditions, then parameters,
then maxQueryRange: an earlier failing check surfaces regardless of the
later fields. -/
theorem c5_config_validation (req : RuleRequest) (cfg : RuleConfig) (res : RuleResult)
    (hist : List (List DbValue)) (ht : isTenantsRuleRequest req = true) :
    (isFalsyBands cfg.config.bands = true →
      handleTransactionOpts req cfg res hist
        = (.error "Invalid config provided - bands not provided or empty", 0)) ∧
    (isFalsyBands cfg.config.bands = false →
      cfg.config.exitConditions = none →
      handleTransactionOpts req cfg res hist
        = (.error "Invalid config provided - exitConditions not provided", 0)) ∧
    (isFalsyBands cfg.config.bands = false →
      cfg.config.exitConditions.isNone = false →
      cfg.config.parameters = none →
      handleTransactionOpts req cfg res hist
        = (.error "Invalid config provided - parameters not provided", 0)) ∧
    (∀ params : Parameters,
      isFalsyBands cfg.config.bands = false →
      cfg.config.exitConditions.isNone = false →
      cfg.config.parameters = some params →
      isFalsyOptNat params.maxQueryRange = true →
      handleTransactionOpts req cfg res hist
        = (.error "Invalid config provided - maxQueryRange parameter not provided", 0)) := by
  refine ⟨?_, ?_, ?_, ?_⟩
  · intro hb
    simp [handleTransactionOpts, ht, hb]
  · intro hb hec
    simp [handleTransactionOpts, ht, hb, hec]
  · intro hb hec hp
    simp [handleTransactionOpts, ht, hb, hec, hp]
  · intro params hb hec hp hq
    simp [handleTransactionOpts, ht, hb, hec, hp, hq]

/-- Witness for C5: the bands check fires on the bands-less configuration
even though its other fields are also readable, and the maxQueryRange check
fires on a configuration whose only defect is a zero maxQueryRange. -/
theorem c5_config_validation_witness :
    (handleTransactionOpts req1 noBandsConfig res0 []
        = (.error "Invalid config provided - bands not provided or empty", 0)) ∧
    (handleTransactionOpts req1
        { testConfig with
          config := { testConfig.config with parameters := some ⟨some 0⟩ } } res0 []
        = (.error "Invalid config provided - maxQueryRange parameter not provided", 0)) :=
  ⟨(c5_config_validation req1 noBandsConfig res0 [] rfl).1 rfl,
   (c5_config_validation req1 _ res0 [] rfl).2.2.2 ⟨some 0⟩ rfl rfl rfl rfl⟩

/-! ## C10 - tenant guard in the direct entry point -/

/-- Claim C10: the options-form handleTransaction requires a string
TenantId even though it performs no tenant-specific lookup - a request
without one is rejected with the TenantId error before any configuration
validation and before any I/O, for every configuration; and an empty-string
TenantId passes the guard, so evaluation reaches configuration validation. -/
theorem c10_direct_tenant_guard :
    (∀ (req : RuleRequest) (cfg : RuleConfig) (res : RuleResult) (hist : List (List DbValue)),
        isTenantsRuleRequest req = false →
        handleTransactionOpts req cfg res hist
          = (.error "TenantId not provided in request", 0)) ∧
    (reqEmptyTenant.tenantId = some (.str "") ∧
      handleTransactionOpts reqEmptyTenant noBandsConfig res0 []
        = (.error "Invalid config provided - bands not provided or empty", 0)) := by
  constructor
  · intro req cfg res hist ht
    simp [handleTransactionOpts, ht]
  · exact ⟨rfl, rfl⟩

/-- Witness for C10: a request lacking the TenantId field is rejected with
the TenantId error even against the bands-less (invalid) configuration. -/
theorem c10_direct_tenant_guard_witness :
    handleTransactionOpts reqNoTenant noBandsConfig res0 []
      = (.error "TenantId not provided in request", 0) :=
  c10_direct_tenant_guard.1 reqNoTenant noBandsConfig res0 [] rfl

/-! ## Cache lemmas shared by the tenant-configuration claims -/

theorem cacheGet_cacheSet_self (c : Cache) (k : String) (v : TenantRuleConfig) :
    cacheGet (cacheSet c k v) k = some v := by
  simp [cacheSet, cacheGet]

theorem cacheGet_cacheDel (c : Cache) (key k : String) :
    cacheGet (cacheDel c key) k = if k = key then none else cacheGet c k := by
  induction c with
  | nil => simp [cacheDel, cacheGet]
  | cons a rest ih =>
    obtain ⟨k', v⟩ := a
    by_cases h1 : k' = key
    · subst h1
      by_cases h2 : k = k'
      · subst h2
        simp [cacheDel, ih]
      · have hb : (k' == k) = false := beq_eq_false_iff_ne.mpr (fun h => h2 h.symm)
        simp [cacheDel, cacheGet, ih, h2, hb]
    · have hb1 : (k' == key) = false := beq_eq_false_iff_ne.mpr h1
      by_cases h2 : k' = k
      · subst h2
        have hk : ¬ k' = key := h1
        simp [cacheDel, cacheGet, hb1, hk]
      · have hb2 : (k' == k) = false := beq_eq_false_iff_ne.mpr h2
        simp [cacheDel, cacheGet, hb1, hb2, ih]

theorem cacheGet_clearWithStart (c : Cache) (p k : String) :
    cacheGet (cacheClearWithStart c p) k
      = if strStartsWith k p then none else cacheGet c k := by
  induction c with
  | nil => simp [cacheClearWithStart, cacheGet]
  | cons a rest ih =>
    obtain ⟨k', v⟩ := a
    cases hp : strStartsWith k' p
    · by_cases h2 : k' = k
      · subst h2
        simp [cacheClearWithStart, cacheGet, hp]
      · have hb2 : (k' == k) = false := beq_eq_false_iff_ne.mpr h2
        simp [cacheClearWithStart, cacheGet, hp, hb2, ih]
    · by_cases h2 : k' = k
      · subst h2
        simp [cacheClearWithStart, hp, ih]
      · have hb2 : (k' == k) = false := beq_eq_false_iff_ne.mpr h2
        simp [cacheClearWithStart, cacheGet, hp, hb2, ih]

theorem getTenantRuleConfig_hit (cache : Cache) (store : List (List TenantRuleConfig))
    (t r : String) (cfg : TenantRuleConfig)
    (h : cacheGet cache (t ++ ":" ++ r) = some cfg) :
    getTenantRuleConfig cache store t r = (some cfg, cache, 0) := by
  simp [getTenantRuleConfig, h]

theorem getTenantRuleConfig_miss_found (cache : Cache)
    (store : List (List TenantRuleConfig)) (t r : String) (cfg : TenantRuleConfig)
    (h1 : cacheGet cache (t ++ ":" ++ r) = none)
    (h2 : unwrapBatches store = some cfg) :
    getTenantRuleConfig cache store t r
      = (some cfg, cacheSet cache (t ++ ":" ++ r) cfg, 1) := by
  cases store with
  | nil => simp [unwrapBatches] at h2
  | cons batch rest =>
    cases batch with
    | nil => simp [unwrapBatches] at h2
    | cons c0 cs =>
      simp only [unwrapBatches, List.head?, Option.some.injEq] at h2
      subst h2
      simp [getTenantRuleConfig, h1]

theorem getTenantRuleConfig_miss_empty (cache : Cache)
    (store : List (List TenantRuleConfig)) (t r : String)
    (h1 : cacheGet cache (t ++ ":" ++ r) = none)
    (h2 : unwrapBatches store = none) :
    getTenantRuleConfig cache store t r = (none, cache, 1) := by
  cases store with
  | nil => simp [getTenantRuleConfig, h1]
  | cons batch rest =>
    cases batch with
    | nil => simp [getTenantRuleConfig, h1]
    | cons c0 cs => simp [unwrapBatches] at h2

/-- The tenant-specific configuration fixture of the unit tests (the band
reasons are the tenant-specific variants). -/
def tenantCfg1 : TenantRuleConfig :=
  ⟨⟨some "test-tenant-001-901@1.0.0", "1.0.0",
    ⟨some ⟨some 86400000⟩, some testExitConditions,
      some [⟨".01", none, some 2, "The tenant debtor has performed one transaction to date"⟩,
            ⟨".02", some 2, some 4, "The tenant debtor has performed two or three transactions to date"⟩,
            ⟨".03", some 4, none, "The tenant debtor has performed 4 or more transactions to date"⟩]⟩⟩,
   "test-tenant-001"⟩

/-! ## C6 - cache-backed configuration resolution -/

/-- Claim C6: a first getTenantRuleConfig call on an uncached (tenant,
rule) pair issues exactly one configuration-store query, takes the first
result of the first batch, caches it under `tenantId:ruleId` and returns
it; a second call with the same pair then issues zero store queries and
returns the identical cached value; and when the store returns no rows the
call returns the explicit not-found value (with the cache untouched),
never an error. -/
theorem c6_cache_resolution :
    (∀ (cache : Cache) (store store2 : List (List TenantRuleConfig)) (t r : String)
        (cfg : TenantRuleConfig),
        cacheGet cache (t ++ ":" ++ r) = none →
        unwrapBatches store = some cfg →
        getTenantRuleConfig cache store t r
            = (some cfg, cacheSet cache (t ++ ":" ++ r) cfg, 1) ∧
          getTenantRuleConfig (cacheSet cache (t ++ ":" ++ r) cfg) store2 t r
            = (some cfg, cacheSet cache (t ++ ":" ++ r) cfg, 0)) ∧
    (∀ (cache : Cache) (store : List (List TenantRuleConfig)) (t r : String),
        cacheGet cache (t ++ ":" ++ r) = none →
        unwrapBatches store = none →
        getTenantRuleConfig cache store t r = (none, cache, 1)) := by
  constructor
  · intro cache store store2 t r cfg h1 h2
    exact ⟨getTenantRuleConfig_miss_found cache store t r cfg h1 h2,
           getTenantRuleConfig_hit _ store2 t r cfg (cacheGet_cacheSet_self cache _ cfg)⟩
  · intro cache store t r h1 h2
    exact getTenantRuleConfig_miss_empty cache store t r h1 h2

/-- Witness for C6: an empty cache, the unit tests' tenant configuration as
the single store row, and the unit tests' (tenant, rule) pair. -/
theorem c6_cache_resolution_witness :
    (getTenantRuleConfig [] [[tenantCfg1]] "test-tenant-001" "901@1.0.0"
        = (some tenantCfg1,
           cacheSet [] ("test-tenant-001" ++ ":" ++ "901@1.0.0") tenantCfg1, 1) ∧
      getTenantRuleConfig (cacheSet [] ("test-tenant-001" ++ ":" ++ "901@1.0.0") tenantCfg1)
          [] "test-tenant-001" "901@1.0.0"
        = (some tenantCfg1,
           cacheSet [] ("test-tenant-001" ++ ":" ++ "901@1.0.0") tenantCfg1, 0)) ∧
    getTenantRuleConfig [] [[]] "nonexistent-tenant" "901@1.0.0" = (none, [], 1) :=
  ⟨c6_cache_resolution.1 [] [[tenantCfg1]] [] "test-tenant-001" "901@1.0.0" tenantCfg1 rfl rfl,
   c6_cache_resolution.2 [] [[]] "nonexistent-tenant" "901@1.0.0" rfl rfl⟩

/-! ## C7 - cache invalidation -/

/-- The three-entry cache of the claim's example. -/
def exampleCache : Cache :=
  [("t1:r1", tenantCfg1), ("t1:r2", tenantCfg1), ("t2:r1", tenantCfg1)]

/-- Claim C7: invalidateCache removes exactly the entry keyed
`tenantId:ruleId` and leaves every other key's entry unchanged;
clearTenantCache removes exactly the entries whose key starts with
`tenantId:` and leaves every other tenant's entries unchanged; and with
cached keys t1:r1, t1:r2, t2:r1, clearing tenant t1 leaves exactly t2:r1. -/
theorem c7_cache_removal :
    (∀ (c : Cache) (t r k : String),
        cacheGet (invalidateCache c t r) k
          = if k = t ++ ":" ++ r then none else cacheGet c k) ∧
    (∀ (c : Cache) (t k : String),
        cacheGet (clearTenantCache c t) k
          = if strStartsWith k (t ++ ":") then none else cacheGet c k) ∧
    clearTenantCache exampleCache "t1" = [("t2:r1", tenantCfg1)] := by
  refine ⟨?_, ?_, by decide⟩
  · intro c t r k
    exact cacheGet_cacheDel c (t ++ ":" ++ r) k
  · intro c t k
    exact cacheGet_clearWithStart c (t ++ ":") k

/-! ## C8 - tenant-resolved evaluation guards -/

/-- Claim C8, counterexample: a request whose TenantId is the empty string
does not carry a non-empty string tenant identifier, yet tenant-resolved
evaluation does not fail with the TenantId error and does not fail before
I/O - it issues one configuration-store query and then fails with the
not-found error. -/
theorem c8_counterexample :
    (handleTransactionWithTenantConfig reqEmptyTenant "901@1.0.0" res0 [] [] []).result
        = .error "No rule configuration found for tenant: , rule: 901@1.0.0" ∧
    "No rule configuration found for tenant: , rule: 901@1.0.0"
        ≠ "TenantId not provided in request" ∧
    (handleTransactionWithTenantConfig reqEmptyTenant "901@1.0.0" res0 [] [] []).configQueries
        = 1 := by
  refine ⟨rfl, by decide, rfl⟩

/-- Claim C8 (amended): when the request does not carry a **string** tenant
identifier (absence of a value, or a non-string value; the empty string
passes), tenant-resolved evaluation fails with the TenantId error before
any store access; when it does carry one but no matching configuration is
stored, it fails with the not-found error naming the tenant and rule. -/
theorem c8_tenant_resolution :
    (∀ (req : RuleRequest) (baseRuleId : String) (res : RuleResult) (cache : Cache)
        (configStore : List (List TenantRuleConfig)) (hist : List (List DbValue)),
        isTenantsRuleRequest req = false →
        handleTransactionWithTenantConfig req baseRuleId res cache configStore hist
          = ⟨.error "TenantId not provided in request", 0, 0, cache⟩) ∧
    (∀ (req : RuleRequest) (baseRuleId : String) (res : RuleResult) (cache : Cache)
        (configStore : List (List TenantRuleConfig)) (hist : List (List DbValue)),
        isTenantsRuleRequest req = true →
        cacheGet cache (tenantIdString req ++ ":" ++ baseRuleId) = none →
        unwrapBatches configStore = none →
        handleTransactionWithTenantConfig req baseRuleId res cache configStore hist
          = ⟨.error ("No rule configuration found for tenant: " ++ tenantIdString req
              ++ ", rule: " ++ baseRuleId), 1, 0, cache⟩) := by
  constructor
  · intro req baseRuleId res cache configStore hist ht
    simp [handleTransactionWithTenantConfig, ht]
  · intro req baseRuleId res cache configStore hist ht h1 h2
    simp [handleTransactionWithTenantConfig, ht,
      getTenantRuleConfig_miss_empty cache configStore _ baseRuleId h1 h2]

/-- Witness for C8: the request without a TenantId field is rejected with
the TenantId error, and the valid mock request against an empty store fails
with the not-found error after one store query. -/
theorem c8_tenant_resolution_witness :
    handleTransactionWithTenantConfig reqNoTenant "901@1.0.0" res0 [] [] []
        = ⟨.error "TenantId not provided in request", 0, 0, []⟩ ∧
    handleTransactionWithTenantConfig req1 "901@1.0.0" res0 [] [] []
        = ⟨.error ("No rule configuration found for tenant: " ++ tenantIdString req1
            ++ ", rule: " ++ "901@1.0.0"), 1, 0, []⟩ :=
  ⟨c8_tenant_resolution.1 reqNoTenant "901@1.0.0" res0 [] [] [] rfl,
   c8_tenant_resolution.2 req1 "901@1.0.0" res0 [] [] [] rfl rfl rfl⟩

/-! ## C9 - the two calling forms of handleTransaction -/

/-- Claim C9, counterexample: on a request without a TenantId field and
with an unsuccessful status, the ordered-parameter form returns the `.x00`
exit outcome while the options-bundle form throws the TenantId error, so
the two calling forms do not produce the same result for every input. -/
theorem c9_counterexample :
    (handleTransactionPositional reqUnsuccessfulNoTenant testConfig res0 []).1
        = .ok { res0 with
                subRuleRef := ".x00",
                reason := "Incoming transaction is unsuccessful" } ∧
    (handleTransactionOpts reqUnsuccessfulNoTenant testConfig res0 []).1
        = .error "TenantId not provided in request" ∧
    (Except.ok { res0 with
                 subRuleRef := ".x00",
                 reason := "Incoming transaction is unsuccessful" }
        : Except String RuleResult)
      ≠ .error "TenantId not provided in request" := by
  refine ⟨rfl, rfl, ?_⟩
  intro h
  exact Except.noConfusion h

/-- Claim C9 (amended): for every request carrying a string TenantId, and
history stores whose responses carry the same first value, the
ordered-parameter form and the options-bundle form of handleTransaction
produce the same result. -/
theorem c9_calling_forms (req : RuleRequest) (cfg : RuleConfig) (res : RuleResult)
    (v : DbValue) (rows : List DbValue) (hist : List (List DbValue))
    (ht : isTenantsRuleRequest req = true)
    (hr : rows.head? = some v)
    (hh : unwrapBatches hist = some v) :
    handleTransactionPositional req cfg res rows = handleTransactionOpts req cfg res hist := by
  simp only [handleTransactionPositional, handleTransactionOpts, ht, Bool.not_true,
    Bool.false_eq_true, if_false, hr, hh]
  cases v <;> rfl

/-- Witness for C9: the mock request, the test configuration, and both
stores reporting a count of 1. -/
theorem c9_calling_forms_witness :
    handleTransactionPositional req1 testConfig res0 [DbValue.num 1]
      = handleTransactionOpts req1 testConfig res0 [[DbValue.num 1]] :=
  c9_calling_forms req1 testConfig res0 (DbValue.num 1) [DbValue.num 1] [[DbValue.num 1]]
    rfl rfl rfl

end RuleTemplate
